import Mathlib

/-!
Shallow embedding of the transaction risk-scoring core of the
D-MoneyCare financial-protection monitoring system.

Sources embedded:
- `AnomalyDetectionService` (per-transaction anomaly scorer and the
  routes-side risk-factor recomputation),
- `RiskProfilingService` (patient-level aggregate risk profiler,
  alert-priority mapping and the immediate-alert predicate),
- the transaction-ingestion orchestration of
  `POST /api/patients/:id/transactions` in `server/routes.ts`.

Modelling conventions:
- JavaScript numbers are modelled as `ℚ`; decimal-string columns
  (`amount`, `avgMonthlySpending`, `threshold`) are modelled by the
  rational their `parseFloat` yields.
- `Math.round` is `jsRound q = ⌊q + 1/2⌋`, which agrees with the
  JavaScript half-up rounding on every finite input.
- Timestamps are milliseconds since the epoch (`ℤ`); `new Date()` at
  call time is passed explicitly as a `now : ℤ` parameter.  The local
  clock hour `getHours()` (and the minute, carried only so that clock
  times can be talked about) is stored on the transaction record, since
  the timezone-dependent decoding of a timestamp is outside the core.
- The one place the source can produce a floating-point `NaN` — the
  unguarded division `nightTransactions.length / weekTransactions.length`
  in `AnomalyDetectionService.calculateRiskFactors` — is modelled by an
  `Option`: `none` stands for the `NaN` that `0 / 0` yields and that
  `Math.round` propagates.
-/

/-- JavaScript `Math.round` on finite numbers: round half towards +∞. -/
def jsRound (q : ℚ) : ℤ := ⌊q + 1/2⌋

/-- ASCII lowercasing, modelling `String.prototype.toLowerCase` (the
Korean text appearing in the data has no case, so only ASCII matters). -/
def jsToLower (s : String) : String := String.mk (s.data.map Char.toLower)

/-- Whether the pattern occurs at the head of the character list. -/
def leadMatch : List Char → List Char → Bool
  | [], _ => true
  | _ :: _, [] => false
  | c :: cs, d :: ds => c == d && leadMatch cs ds

/-- Whether the pattern occurs anywhere in the character list. -/
def subMatch (pat : List Char) : List Char → Bool
  | [] => leadMatch pat []
  | c :: cs => leadMatch pat (c :: cs) || subMatch pat cs

/-- JavaScript `String.prototype.includes` for a non-empty pattern. -/
def jsIncludes (s pat : String) : Bool := subMatch pat.data s.data

/-- Split on single whitespace characters, dropping empty tokens: models
`split(/\s+/)` up to the lone leading empty token JavaScript keeps when
the string starts with whitespace (immaterial here: an empty token can
only ever match another empty token). -/
def wsSplitAux : List Char → List Char → List String
  | [], acc => [String.mk acc.reverse]
  | c :: cs, acc =>
    if c.isWhitespace then String.mk acc.reverse :: wsSplitAux cs []
    else wsSplitAux cs (c :: acc)

def jsWsSplit (s : String) : List String :=
  (wsSplitAux s.data []).filter (fun w => w ≠ "")

/-- A transaction row (`shared/schema.ts`): `amount` is the rational
value of the decimal column, `timestamp` is epoch milliseconds, `hour`
is `new Date(timestamp).getHours()` in the server's locale, `minute`
the corresponding minute (never read by the code). -/
structure Tx where
  amount : ℚ
  type : String
  location : Option String
  merchant : Option String
  description : Option String
  timestamp : ℤ
  hour : ℕ
  minute : ℕ
  isAnomaly : Bool
  riskScore : ℤ
deriving Repr, DecidableEq

/-- A partial score together with the human-readable reasons it pushed. -/
structure ScoreReasons where
  score : ℤ
  reasons : List String
deriving Repr, DecidableEq

/-- `AnomalyDetectionResult` of `anomalyDetection.ts`. -/
structure AnomalyDetectionResult where
  isAnomaly : Bool
  riskScore : ℤ
  reasons : List String
deriving Repr, DecidableEq

namespace AnomalyDetectionService

def HIGH_RISK_KEYWORDS : List String :=
  ["선물", "송금", "투자", "대출", "보험가입", "펀드", "주식"]

/-- First block of `analyzeAmount`: comparison with the personal average. -/
def amountVsAvg (transactionAmount avgSpending : ℚ) : ScoreReasons :=
  if avgSpending > 0 then
    let r := transactionAmount / avgSpending
    if r > 3 then ⟨40, [s!"평균 지출 대비 {jsRound r}배 초과"]⟩
    else if r > 2 then ⟨25, [s!"평균 지출 대비 {jsRound r}배 초과"]⟩
    else ⟨0, []⟩
  else ⟨0, []⟩

/-- Second block of `analyzeAmount`: comparison with the recent window's
mean (division by a zero mean, which JavaScript sends to ±∞ or `NaN`, is
modelled by `ℚ`'s zero division: neither branch fires in either
semantics unless the mean is positive, the only case any claim uses). -/
def amountVsRecent (transactionAmount : ℚ) (recentTransactions : List Tx) : ScoreReasons :=
  if recentTransactions.length > 0 then
    let recentAvg := ((recentTransactions.map (fun t => t.amount)).foldl (· + ·) 0) /
      (recentTransactions.length : ℚ)
    let r := transactionAmount / recentAvg
    if r > 5 then ⟨30, [s!"최근 거래 대비 {jsRound r}배 초과"]⟩
    else if r > 3 then ⟨20, [s!"최근 거래 대비 {jsRound r}배 초과"]⟩
    else ⟨0, []⟩
  else ⟨0, []⟩

/-- Third block of `analyzeAmount`: absolute thresholds. -/
def amountAbsolute (transactionAmount : ℚ) : ScoreReasons :=
  if transactionAmount ≥ 1000000 then ⟨35, ["100만원 이상 대용량 거래"]⟩
  else if transactionAmount ≥ 500000 then ⟨20, ["50만원 이상 고액 거래"]⟩
  else ⟨0, []⟩

def analyzeAmount (transactionAmount avgSpending : ℚ)
    (recentTransactions : List Tx) : ScoreReasons :=
  let p1 := amountVsAvg transactionAmount avgSpending
  let p2 := amountVsRecent transactionAmount recentTransactions
  let p3 := amountAbsolute transactionAmount
  ⟨p1.score + p2.score + p3.score, p1.reasons ++ p2.reasons ++ p3.reasons⟩

/-- First block of `analyzeFrequency`: all transactions in the trailing
24 hours before the candidate (`setHours(getHours() - 24)` subtracts 24
hours of epoch milliseconds). -/
def frequency24h (txTimestamp : ℤ) (recentTransactions : List Tx) : ScoreReasons :=
  let last24Hours := txTimestamp - 24 * 60 * 60 * 1000
  let recentCount := (recentTransactions.filter
    (fun t => decide (last24Hours ≤ t.timestamp))).length
  if recentCount ≥ 5 then ⟨30, [s!"24시간 내 {recentCount}번의 거래"]⟩
  else if recentCount ≥ 3 then ⟨15, [s!"24시간 내 {recentCount}번의 거래"]⟩
  else ⟨0, []⟩

/-- Second block of `analyzeFrequency`: ATM withdrawals in the same window. -/
def frequencyAtm (txType : String) (txTimestamp : ℤ)
    (recentTransactions : List Tx) : ScoreReasons :=
  let last24Hours := txTimestamp - 24 * 60 * 60 * 1000
  if txType == "ATM" then
    let atmCount := (recentTransactions.filter
      (fun t => t.type == "ATM" && decide (last24Hours ≤ t.timestamp))).length
    if atmCount ≥ 3 then ⟨25, [s!"하루 내 {atmCount}번의 ATM 출금"]⟩
    else ⟨0, []⟩
  else ⟨0, []⟩

def analyzeFrequency (transaction : Tx) (recentTransactions : List Tx) : ScoreReasons :=
  let p1 := frequency24h transaction.timestamp recentTransactions
  let p2 := frequencyAtm transaction.type transaction.timestamp recentTransactions
  ⟨p1.score + p2.score, p1.reasons ++ p2.reasons⟩

/-- `analyzeTime`: late-night or early-morning hours. -/
def analyzeTime (hour : ℕ) : ScoreReasons :=
  if hour ≥ 23 ∨ hour ≤ 6 then ⟨20, ["비정상적인 시간대 거래 (심야/새벽)"]⟩
  else ⟨0, []⟩

/-- First block of `analyzeMerchant`: the fixed high-risk vocabulary,
first match only. -/
def merchantKeyword (text : String) : ScoreReasons :=
  match HIGH_RISK_KEYWORDS.find? (fun keyword => jsIncludes text keyword) with
  | some keyword => ⟨25, [s!"위험 키워드 감지: {keyword}"]⟩
  | none => ⟨0, []⟩

/-- Second block of `analyzeMerchant`: online/phone-channel terms. -/
def merchantOnline (text : String) : ScoreReasons :=
  if jsIncludes text "온라인" || jsIncludes text "인터넷" || jsIncludes text "전화" then
    ⟨15, ["온라인/전화 거래"]⟩
  else ⟨0, []⟩

/-- Third block of `analyzeMerchant`: unknown/unverified merchant markers
(checked on the raw merchant string; an empty merchant is falsy in
JavaScript and matches neither marker, so the guard needs no extra case). -/
def merchantUnknown (merchant : Option String) : ScoreReasons :=
  match merchant with
  | some m =>
    if jsIncludes m "알수없음" || jsIncludes m "미확인" then ⟨20, ["알 수 없는 가맹점"]⟩
    else ⟨0, []⟩
  | none => ⟨0, []⟩

def analyzeMerchant (merchant description : Option String) : ScoreReasons :=
  let text := jsToLower ((merchant.getD "") ++ " " ++ (description.getD ""))
  let p1 := merchantKeyword text
  let p2 := merchantOnline text
  let p3 := merchantUnknown merchant
  ⟨p1.score + p2.score + p3.score, p1.reasons ++ p2.reasons ++ p3.reasons⟩

/-- `isSimilarLocation`: the two locations share a whitespace-split token. -/
def isSimilarLocation (loc1 loc2 : String) : Bool :=
  (jsWsSplit (jsToLower loc1)).any (fun word => (jsWsSplit (jsToLower loc2)).contains word)

/-- `analyzeLocation` (an absent or empty location is falsy in
JavaScript and exits early). -/
def analyzeLocation (location : Option String)
    (recentTransactions : List Tx) : ScoreReasons :=
  match location with
  | none => ⟨0, []⟩
  | some loc =>
    if loc = "" then ⟨0, []⟩
    else
      let recentLocations :=
        (((recentTransactions.map (fun t => t.location)).filterMap id).filter
          (fun l => l ≠ "")).take 10
      if recentLocations.length > 0 then
        let isUnusualLocation := !(recentLocations.any (fun l => isSimilarLocation loc l))
        if isUnusualLocation then ⟨15, ["비정상적인 거래 위치"]⟩ else ⟨0, []⟩
      else ⟨0, []⟩

/-- `detectAnomaly`: the five partial scores summed and capped at 100;
the anomaly flag is the fixed ≥ 30 threshold on the capped score. -/
def detectAnomaly (transaction : Tx) (recentTransactions : List Tx)
    (patientAvgSpending : ℚ) : AnomalyDetectionResult :=
  let amountRisk := analyzeAmount transaction.amount patientAvgSpending recentTransactions
  let frequencyRisk := analyzeFrequency transaction recentTransactions
  let timeRisk := analyzeTime transaction.hour
  let merchantRisk := analyzeMerchant transaction.merchant transaction.description
  let locationRisk := analyzeLocation transaction.location recentTransactions
  let riskScore := min (amountRisk.score + frequencyRisk.score + timeRisk.score +
    merchantRisk.score + locationRisk.score) 100
  { isAnomaly := decide (riskScore ≥ 30)
    riskScore := riskScore
    reasons := ((amountRisk.reasons ++ frequencyRisk.reasons ++ timeRisk.reasons ++
      merchantRisk.reasons ++ locationRisk.reasons).filter (fun s => s ≠ "")) }

/-- The risk-factor record written by the ingestion route; `timingScore`
is `none` exactly when the source's unguarded division produced `NaN`. -/
structure RiskFactorRecord where
  frequencyScore : ℤ
  amountScore : ℤ
  timingScore : Option ℤ
  locationScore : ℤ
deriving Repr, DecidableEq

/-- `AnomalyDetectionService.calculateRiskFactors` (the unused
`patientId` parameter of the source is dropped; `now` models the
`new Date()` taken at call time). -/
def calculateRiskFactors (now : ℤ) (recentTransactions : List Tx) : RiskFactorRecord :=
  let last7Days := now - 7 * 24 * 60 * 60 * 1000
  let weekTransactions := recentTransactions.filter
    (fun t => decide (last7Days ≤ t.timestamp))
  let dailyTransactionCount : ℚ := (weekTransactions.length : ℚ) / 7
  let frequencyScore : ℚ := min (dailyTransactionCount * 20) 100
  let amounts := weekTransactions.map (fun t => t.amount)
  let avgAmount : ℚ :=
    if amounts.length > 0 then (amounts.foldl (· + ·) 0) / (amounts.length : ℚ) else 0
  let amountScore : ℚ := min (avgAmount / 10000) 100
  let nightTransactions := weekTransactions.filter
    (fun t => decide (t.hour ≥ 23) || decide (t.hour ≤ 6))
  let timingScore : Option ℤ :=
    if weekTransactions.length = 0 then none
    else some (jsRound (((nightTransactions.length : ℚ) / (weekTransactions.length : ℚ)) * 100))
  let uniqueLocations :=
    (((weekTransactions.map (fun t => t.location)).filterMap id).filter
      (fun l => l ≠ "")).dedup
  let locationScore : ℚ := min ((uniqueLocations.length : ℚ) * 15) 100
  { frequencyScore := jsRound frequencyScore
    amountScore := jsRound amountScore
    timingScore := timingScore
    locationScore := jsRound locationScore }

end AnomalyDetectionService

/-- A patient row, restricted to the fields the core reads
(`avgMonthlySpending` is the rational value of the decimal column). -/
structure Patient where
  name : String
  riskLevel : String
  dementiaStage : Option String
  avgMonthlySpending : ℚ
deriving Repr, DecidableEq

/-- The four multiplier-adjusted factor scores of a `RiskProfile`. -/
structure RiskFactors where
  frequency : ℤ
  amount : ℤ
  timing : ℤ
  location : ℤ
deriving Repr, DecidableEq

/-- `RiskProfile` of `riskProfiling.ts`. -/
structure RiskProfile where
  riskLevel : String
  totalScore : ℤ
  factors : RiskFactors
  recommendations : List String
deriving Repr, DecidableEq

/-- An `alert_settings` row, restricted to the fields the core reads:
`threshold` is `none` when the decimal string is absent/empty (the
source then falls back to `"100000"`). -/
structure AlertSettings where
  immediateAlerts : Bool
  threshold : Option ℚ
deriving Repr, DecidableEq

namespace RiskProfilingService

/-- The trailing 7-day restriction both factor computations apply:
`new Date(t.timestamp) >= new Date(now - 7*24*60*60*1000)`. -/
def weekTransactionsOf (now : ℤ) (recentTransactions : List Tx) : List Tx :=
  recentTransactions.filter (fun t => decide (now - 7 * 24 * 60 * 60 * 1000 ≤ t.timestamp))

/-- Frequency base factor: the week's daily transaction rate, bucketed. -/
def frequencyBaseScore (weekTransactions : List Tx) : ℚ :=
  let dailyTransactionCount : ℚ := (weekTransactions.length : ℚ) / 7
  if dailyTransactionCount > 5 then 85
  else if dailyTransactionCount > 3 then 60
  else if dailyTransactionCount > 2 then 35
  else 15

/-- Amount base factor: weekly total extrapolated to a month against the
historical monthly average, or absolute weekly total when no average exists. -/
def amountBaseScore (avgMonthlySpending : ℚ) (weekTransactions : List Tx) : ℚ :=
  let totalWeeklyAmount := (weekTransactions.map (fun t => t.amount)).foldl (· + ·) 0
  if avgMonthlySpending > 0 then
    let weeklyRatio := (totalWeeklyAmount * 4) / avgMonthlySpending
    if weeklyRatio > 3 then 85
    else if weeklyRatio > 2 then 60
    else if weeklyRatio > 1.5 then 40
    else 20
  else
    if totalWeeklyAmount > 1000000 then 80
    else if totalWeeklyAmount > 500000 then 50
    else 20

/-- The night-hour predicate of the profiler's timing factor:
`hour >= 22 || hour <= 7`. -/
def isProfilerNightHour (t : Tx) : Bool :=
  decide (t.hour ≥ 22) || decide (t.hour ≤ 7)

/-- Timing base factor: the percentage of the week's transactions in the
night hours, zero-guarded when the week is empty. -/
def timingBaseScore (weekTransactions : List Tx) : ℤ :=
  let nightTransactions := weekTransactions.filter isProfilerNightHour
  if weekTransactions.length > 0 then
    jsRound (((nightTransactions.length : ℚ) / (weekTransactions.length : ℚ)) * 100)
  else 0

/-- Location base factor: distinct non-empty locations of the week, bucketed. -/
def locationBaseScore (weekTransactions : List Tx) : ℚ :=
  let uniqueLocations :=
    (((weekTransactions.map (fun t => t.location)).filterMap id).filter
      (fun l => l ≠ "")).dedup
  if uniqueLocations.length > 10 then 80
  else if uniqueLocations.length > 7 then 60
  else if uniqueLocations.length > 5 then 40
  else 20

/-- `getDementiaRiskMultiplier`. -/
def getDementiaRiskMultiplier (dementiaStage : Option String) : ℚ :=
  match dementiaStage with
  | none => 1.0
  | some stage =>
    match jsToLower stage with
    | "경도" => 1.1
    | "중등도" => 1.3
    | "중증" => 1.5
    | _ => 1.0

/-- The multiplier adjustment applied to every base factor:
`Math.min(Math.round(score * multiplier), 100)`. -/
def adjustFactor (score multiplier : ℚ) : ℤ :=
  min (jsRound (score * multiplier)) 100

/-- `RiskProfilingService.calculateRiskFactors` (the 30-day filtered
list the source also builds is dead code and omitted). -/
def calculateRiskFactors (now : ℤ) (patient : Patient)
    (recentTransactions : List Tx) : RiskFactors :=
  let weekTransactions := weekTransactionsOf now recentTransactions
  let dementiaMultiplier := getDementiaRiskMultiplier patient.dementiaStage
  { frequency := adjustFactor (frequencyBaseScore weekTransactions) dementiaMultiplier
    amount := adjustFactor (amountBaseScore patient.avgMonthlySpending weekTransactions)
      dementiaMultiplier
    timing := adjustFactor ((timingBaseScore weekTransactions : ℤ) : ℚ) dementiaMultiplier
    location := adjustFactor (locationBaseScore weekTransactions) dementiaMultiplier }

/-- `calculateTotalScore`: the fixed-weight average of the four factors. -/
def calculateTotalScore (factors : RiskFactors) : ℤ :=
  jsRound ((factors.frequency : ℚ) * 0.3 + (factors.amount : ℚ) * 0.4 +
    (factors.timing : ℚ) * 0.15 + (factors.location : ℚ) * 0.15)

/-- `determineRiskLevel`: the three-tier classification. -/
def determineRiskLevel (totalScore : ℤ) : String :=
  if totalScore ≥ 70 then "고위험"
  else if totalScore ≥ 40 then "중위험"
  else "저위험"

/-- `generateRecommendations`. -/
def generateRecommendations (riskLevel : String) (factors : RiskFactors)
    (recentTransactions : List Tx) : List String :=
  let tierAdvice :=
    if riskLevel = "고위험" then
      ["즉시 환자와 연락하여 최근 거래 내역을 확인하세요",
       "필요시 금융기관에 연락하여 거래 제한을 요청하세요"]
      ++ (if factors.amount > 70 then
            ["대용량 거래가 감지되었습니다. 사기 피해 가능성을 확인하세요"] else [])
      ++ (if factors.frequency > 70 then
            ["비정상적으로 잦은 거래가 발생하고 있습니다"] else [])
    else if riskLevel = "중위험" then
      ["환자의 최근 활동을 주의 깊게 모니터링하세요",
       "정기적으로 거래 내역을 확인해주세요"]
      ++ (if factors.timing > 50 then
            ["심야 시간대 거래가 증가했습니다. 주의가 필요합니다"] else [])
    else
      ["현재 안정적인 거래 패턴을 보이고 있습니다", "주간 모니터링을 계속 유지하세요"]
  let atmTransactions := recentTransactions.filter (fun t => t.type == "ATM")
  let atmAdvice :=
    if atmTransactions.length > 3 then
      ["ATM 출금 빈도가 높습니다. 현금 사용 패턴을 확인하세요"] else []
  let anomalies := recentTransactions.filter (fun t => t.isAnomaly)
  let anomalyAdvice :=
    if anomalies.length > 0 then
      [s!"{anomalies.length}건의 이상 거래가 감지되었습니다"] else []
  tierAdvice ++ atmAdvice ++ anomalyAdvice

/-- `RiskProfilingService.assessRisk` (the optional prior assessment the
source accepts is informational only and never read; `now` models the
`new Date()` taken inside `calculateRiskFactors`). -/
def assessRisk (now : ℤ) (patient : Patient) (recentTransactions : List Tx) : RiskProfile :=
  let factors := calculateRiskFactors now patient recentTransactions
  let totalScore := calculateTotalScore factors
  let riskLevel := determineRiskLevel totalScore
  let recommendations := generateRecommendations riskLevel factors recentTransactions
  { riskLevel := riskLevel
    totalScore := totalScore
    factors := factors
    recommendations := recommendations }

/-- `getAlertPriority`. -/
def getAlertPriority (riskLevel : String) : String :=
  match riskLevel with
  | "고위험" => "high"
  | "중위험" => "medium"
  | _ => "low"

/-- `shouldSendImmediateAlert`. -/
def shouldSendImmediateAlert (riskScore : ℚ) (transactionAmount : ℚ)
    (alertSettings : Option AlertSettings) : Bool :=
  match alertSettings with
  | none => false
  | some settings =>
    if !settings.immediateAlerts then false
    else
      let threshold := settings.threshold.getD 100000
      decide (riskScore ≥ 70) || decide (transactionAmount ≥ threshold)

end RiskProfilingService

/-- An alert row as created by the ingestion route, restricted to the
fields claims inspect (the templated title/message text and the
DB-generated ids are elided). -/
structure AlertRow where
  type : String
  severity : String
deriving Repr, DecidableEq

/-- A `risk_assessments` row as created by the ingestion route:
`timingScore`/`totalScore` are `none` exactly when the source computed
`NaN` for them. -/
structure RiskAssessmentRow where
  frequencyScore : ℤ
  amountScore : ℤ
  timingScore : Option ℤ
  locationScore : ℤ
  totalScore : Option ℤ
deriving Repr, DecidableEq

/-- What one `POST /api/patients/:id/transactions` request persists. -/
structure IngestionResult where
  storedTransaction : Tx
  anomaly : AnomalyDetectionResult
  alertCreated : Option AlertRow
  riskAssessmentCreated : Option RiskAssessmentRow
  updatedRiskLevel : Option String
deriving Repr, DecidableEq

/-- The risk-level ternary of the ingestion route
(`totalScore >= 70 ? "고위험" : totalScore >= 40 ? "중위험" : "저위험"`);
a `NaN` total compares false on both tests and falls through to `저위험`. -/
def routesRiskLevel (totalScore : Option ℤ) : String :=
  match totalScore with
  | some t => if t ≥ 70 then "고위험" else if t ≥ 40 then "중위험" else "저위험"
  | none => "저위험"

/-- The route's persisted total: the unweighted rounded mean of the four
factor scores written by `AnomalyDetectionService.calculateRiskFactors`
(a `NaN` timing score propagates into the total). -/
def routesTotalScore (riskFactors : AnomalyDetectionService.RiskFactorRecord) : Option ℤ :=
  riskFactors.timingScore.map (fun timing =>
    jsRound (((riskFactors.frequencyScore + riskFactors.amountScore + timing +
      riskFactors.locationScore : ℤ) : ℚ) / 4))

/-- The transaction-ingestion orchestration of
`POST /api/patients/:id/transactions` in `server/routes.ts`:
anomaly detection over the caller-fetched recent window, persistence of
the scored transaction, and — only when the transaction is anomalous —
alert creation, risk-assessment recomputation over the widened history
and the patient risk-level update.  The route fetches the patient's
`alertSettings` at this point but never reads them, which the unused
parameter reproduces. -/
def processNewTransaction (now : ℤ) (patient : Patient)
    (alertSettings : Option AlertSettings) (recentTransactions : List Tx)
    (transactionData : Tx) : IngestionResult :=
  let _ := alertSettings
  let avgSpending := patient.avgMonthlySpending / 30
  let anomalyResult :=
    AnomalyDetectionService.detectAnomaly transactionData recentTransactions avgSpending
  let transaction : Tx :=
    { transactionData with isAnomaly := anomalyResult.isAnomaly
                           riskScore := anomalyResult.riskScore }
  if anomalyResult.isAnomaly then
    let alertType :=
      if anomalyResult.riskScore ≥ 70 then "긴급"
      else if anomalyResult.riskScore ≥ 50 then "고위험"
      else "중위험"
    let alert : AlertRow :=
      { type := alertType
        severity := RiskProfilingService.getAlertPriority
          (if alertType == "긴급" then "고위험" else alertType) }
    let riskFactors :=
      AnomalyDetectionService.calculateRiskFactors now (recentTransactions ++ [transaction])
    let totalScore : Option ℤ := routesTotalScore riskFactors
    { storedTransaction := transaction
      anomaly := anomalyResult
      alertCreated := some alert
      riskAssessmentCreated := some
        { frequencyScore := riskFactors.frequencyScore
          amountScore := riskFactors.amountScore
          timingScore := riskFactors.timingScore
          locationScore := riskFactors.locationScore
          totalScore := totalScore }
      updatedRiskLevel := some (routesRiskLevel totalScore) }
  else
    { storedTransaction := transaction
      anomaly := anomalyResult
      alertCreated := none
      riskAssessmentCreated := none
      updatedRiskLevel := none }

/-! Concrete inputs used to settle individual claims. -/

/-- The candidate transaction of spec example 1: amount 1,200,000, type
ATM, 02:00, no optional fields. -/
def exampleOneTx : Tx :=
  { amount := 1200000, type := "ATM", location := none, merchant := none,
    description := none, timestamp := 0, hour := 2, minute := 0, isAnomaly := false,
    riskScore := 0 }

/-- A patient with a mild dementia stage and a 900,000 monthly average. -/
def patientB : Patient :=
  { name := "김할머니", riskLevel := "저위험", dementiaStage := some "경도",
    avgMonthlySpending := 900000 }

/-- A plain daytime card payment of 100,000 at a known location. -/
def txB : Tx :=
  { amount := 100000, type := "카드결제", location := some "서울", merchant := none,
    description := none, timestamp := 0, hour := 10, minute := 0, isAnomaly := false,
    riskScore := 0 }

/-- `txB` as the ingestion route stores it (scored 40, flagged anomalous). -/
def storedTxB : Tx :=
  { txB with isAnomaly := true, riskScore := 40 }

/-- A transaction whose clock time is 07:30. -/
def morningTx : Tx :=
  { amount := 10000, type := "카드결제", location := some "서울", merchant := none,
    description := none, timestamp := 0, hour := 7, minute := 30, isAnomaly := false,
    riskScore := 0 }

/-! ## Theorems -/

theorem jsRound_nonneg {q : ℚ} (h : 0 ≤ q) : 0 ≤ jsRound q := by
  unfold jsRound
  exact Int.le_floor.mpr (by push_cast; linarith)

theorem jsRound_le {q : ℚ} {n : ℤ} (h : q ≤ (n : ℚ)) : jsRound q ≤ n := by
  unfold jsRound
  have hlt : ⌊q + 1/2⌋ < n + 1 := Int.floor_lt.mpr (by push_cast; linarith)
  omega

theorem jsRound_mono {q r : ℚ} (h : q ≤ r) : jsRound q ≤ jsRound r :=
  Int.floor_le_floor (by linarith)

namespace AnomalyDetectionService

theorem amountVsAvg_score_nonneg (a s : ℚ) : 0 ≤ (amountVsAvg a s).score := by
  unfold amountVsAvg
  simp only [apply_ite ScoreReasons.score]
  split_ifs <;> simp

theorem amountVsRecent_score_nonneg (a : ℚ) (rs : List Tx) :
    0 ≤ (amountVsRecent a rs).score := by
  unfold amountVsRecent
  simp only [apply_ite ScoreReasons.score]
  split_ifs <;> simp

theorem amountAbsolute_score_nonneg (a : ℚ) : 0 ≤ (amountAbsolute a).score := by
  unfold amountAbsolute
  simp only [apply_ite ScoreReasons.score]
  split_ifs <;> simp

theorem analyzeAmount_score_nonneg (a s : ℚ) (rs : List Tx) :
    0 ≤ (analyzeAmount a s rs).score := by
  have h1 := amountVsAvg_score_nonneg a s
  have h2 := amountVsRecent_score_nonneg a rs
  have h3 := amountAbsolute_score_nonneg a
  unfold analyzeAmount
  dsimp only
  omega

theorem frequency24h_score_nonneg (ts : ℤ) (rs : List Tx) :
    0 ≤ (frequency24h ts rs).score := by
  unfold frequency24h
  simp only [apply_ite ScoreReasons.score]
  split_ifs <;> simp

theorem frequencyAtm_score_nonneg (ty : String) (ts : ℤ) (rs : List Tx) :
    0 ≤ (frequencyAtm ty ts rs).score := by
  unfold frequencyAtm
  simp only [apply_ite ScoreReasons.score]
  split_ifs <;> simp

theorem analyzeFrequency_score_nonneg (t : Tx) (rs : List Tx) :
    0 ≤ (analyzeFrequency t rs).score := by
  have h1 := frequency24h_score_nonneg t.timestamp rs
  have h2 := frequencyAtm_score_nonneg t.type t.timestamp rs
  unfold analyzeFrequency
  dsimp only
  omega

theorem analyzeTime_score_nonneg (h : ℕ) : 0 ≤ (analyzeTime h).score := by
  unfold analyzeTime
  simp only [apply_ite ScoreReasons.score]
  split_ifs <;> simp

theorem merchantKeyword_score_nonneg (t : String) : 0 ≤ (merchantKeyword t).score := by
  unfold merchantKeyword
  cases HIGH_RISK_KEYWORDS.find? (fun keyword => jsIncludes t keyword) <;> simp

theorem merchantOnline_score_nonneg (t : String) : 0 ≤ (merchantOnline t).score := by
  unfold merchantOnline
  simp only [apply_ite ScoreReasons.score]
  split_ifs <;> simp

theorem merchantUnknown_score_nonneg (m : Option String) :
    0 ≤ (merchantUnknown m).score := by
  unfold merchantUnknown
  cases m with
  | none => simp
  | some s =>
    simp only [apply_ite ScoreReasons.score]
    split_ifs <;> simp

theorem analyzeMerchant_score_nonneg (m d : Option String) :
    0 ≤ (analyzeMerchant m d).score := by
  have h1 := merchantKeyword_score_nonneg (jsToLower ((m.getD "") ++ " " ++ (d.getD "")))
  have h2 := merchantOnline_score_nonneg (jsToLower ((m.getD "") ++ " " ++ (d.getD "")))
  have h3 := merchantUnknown_score_nonneg m
  unfold analyzeMerchant
  dsimp only
  omega

theorem analyzeLocation_score_nonneg (l : Option String) (rs : List Tx) :
    0 ≤ (analyzeLocation l rs).score := by
  unfold analyzeLocation
  cases l with
  | none => simp
  | some s =>
    simp only [apply_ite ScoreReasons.score]
    split_ifs <;> simp

theorem detectAnomaly_riskScore_nonneg (t : Tx) (rs : List Tx) (avg : ℚ) :
    0 ≤ (detectAnomaly t rs avg).riskScore := by
  have h1 := analyzeAmount_score_nonneg t.amount avg rs
  have h2 := analyzeFrequency_score_nonneg t rs
  have h3 := analyzeTime_score_nonneg t.hour
  have h4 := analyzeMerchant_score_nonneg t.merchant t.description
  have h5 := analyzeLocation_score_nonneg t.location rs
  unfold detectAnomaly
  dsimp only
  omega

theorem detectAnomaly_riskScore_le (t : Tx) (rs : List Tx) (avg : ℚ) :
    (detectAnomaly t rs avg).riskScore ≤ 100 := by
  unfold detectAnomaly
  dsimp only
  omega

end AnomalyDetectionService

namespace RiskProfilingService

theorem one_le_getDementiaRiskMultiplier (stage : Option String) :
    1 ≤ getDementiaRiskMultiplier stage := by
  unfold getDementiaRiskMultiplier
  cases stage with
  | none => norm_num
  | some s =>
    dsimp only
    split <;> norm_num

theorem frequencyBaseScore_nonneg (week : List Tx) : 0 ≤ frequencyBaseScore week := by
  unfold frequencyBaseScore
  dsimp only
  split_ifs <;> norm_num

theorem amountBaseScore_nonneg (avg : ℚ) (week : List Tx) :
    0 ≤ amountBaseScore avg week := by
  unfold amountBaseScore
  dsimp only
  split_ifs <;> norm_num

theorem timingBaseScore_nonneg (week : List Tx) : 0 ≤ timingBaseScore week := by
  unfold timingBaseScore
  split_ifs with h
  · exact jsRound_nonneg (by positivity)
  · norm_num

theorem locationBaseScore_nonneg (week : List Tx) : 0 ≤ locationBaseScore week := by
  unfold locationBaseScore
  dsimp only
  split_ifs <;> norm_num

theorem adjustFactor_nonneg {score multiplier : ℚ} (hs : 0 ≤ score)
    (hm : 0 ≤ multiplier) : 0 ≤ adjustFactor score multiplier := by
  unfold adjustFactor
  exact le_min (jsRound_nonneg (mul_nonneg hs hm)) (by norm_num)

theorem adjustFactor_le (score multiplier : ℚ) : adjustFactor score multiplier ≤ 100 :=
  min_le_right _ _

theorem calculateRiskFactors_bounds (now : ℤ) (patient : Patient) (txs : List Tx) :
    (0 ≤ (calculateRiskFactors now patient txs).frequency ∧
      (calculateRiskFactors now patient txs).frequency ≤ 100) ∧
    (0 ≤ (calculateRiskFactors now patient txs).amount ∧
      (calculateRiskFactors now patient txs).amount ≤ 100) ∧
    (0 ≤ (calculateRiskFactors now patient txs).timing ∧
      (calculateRiskFactors now patient txs).timing ≤ 100) ∧
    (0 ≤ (calculateRiskFactors now patient txs).location ∧
      (calculateRiskFactors now patient txs).location ≤ 100) := by
  have hm : (0 : ℚ) ≤ getDementiaRiskMultiplier patient.dementiaStage :=
    le_trans (by norm_num) (one_le_getDementiaRiskMultiplier patient.dementiaStage)
  have ht : (0 : ℚ) ≤ ((timingBaseScore (weekTransactionsOf now txs) : ℤ) : ℚ) := by
    exact_mod_cast timingBaseScore_nonneg (weekTransactionsOf now txs)
  unfold calculateRiskFactors
  dsimp only
  exact ⟨⟨adjustFactor_nonneg (frequencyBaseScore_nonneg _) hm, adjustFactor_le _ _⟩,
    ⟨adjustFactor_nonneg (amountBaseScore_nonneg _ _) hm, adjustFactor_le _ _⟩,
    ⟨adjustFactor_nonneg ht hm, adjustFactor_le _ _⟩,
    ⟨adjustFactor_nonneg (locationBaseScore_nonneg _) hm, adjustFactor_le _ _⟩⟩

theorem calculateTotalScore_bounds {factors : RiskFactors}
    (hf : 0 ≤ factors.frequency ∧ factors.frequency ≤ 100)
    (ha : 0 ≤ factors.amount ∧ factors.amount ≤ 100)
    (ht : 0 ≤ factors.timing ∧ factors.timing ≤ 100)
    (hl : 0 ≤ factors.location ∧ factors.location ≤ 100) :
    0 ≤ calculateTotalScore factors ∧ calculateTotalScore factors ≤ 100 := by
  obtain ⟨hf0, hf1⟩ := hf
  obtain ⟨ha0, ha1⟩ := ha
  obtain ⟨ht0, ht1⟩ := ht
  obtain ⟨hl0, hl1⟩ := hl
  have hf0' : (0 : ℚ) ≤ (factors.frequency : ℚ) := by exact_mod_cast hf0
  have hf1' : (factors.frequency : ℚ) ≤ 100 := by exact_mod_cast hf1
  have ha0' : (0 : ℚ) ≤ (factors.amount : ℚ) := by exact_mod_cast ha0
  have ha1' : (factors.amount : ℚ) ≤ 100 := by exact_mod_cast ha1
  have ht0' : (0 : ℚ) ≤ (factors.timing : ℚ) := by exact_mod_cast ht0
  have ht1' : (factors.timing : ℚ) ≤ 100 := by exact_mod_cast ht1
  have hl0' : (0 : ℚ) ≤ (factors.location : ℚ) := by exact_mod_cast hl0
  have hl1' : (factors.location : ℚ) ≤ 100 := by exact_mod_cast hl1
  unfold calculateTotalScore
  constructor
  · refine jsRound_nonneg ?_
    nlinarith
  · refine jsRound_le ?_
    push_cast
    nlinarith

end RiskProfilingService

/-- The anomaly result an ingestion request computes, independent of the
branch taken afterwards. -/
theorem processNewTransaction_anomaly (now : ℤ) (patient : Patient)
    (settings : Option AlertSettings) (recent : List Tx) (txData : Tx) :
    (processNewTransaction now patient settings recent txData).anomaly =
      AnomalyDetectionService.detectAnomaly txData recent (patient.avgMonthlySpending / 30) := by
  unfold processNewTransaction
  dsimp only
  split <;> rfl

/-- The transaction row an ingestion request stores, independent of the
branch taken afterwards. -/
theorem processNewTransaction_stored (now : ℤ) (patient : Patient)
    (settings : Option AlertSettings) (recent : List Tx) (txData : Tx) :
    (processNewTransaction now patient settings recent txData).storedTransaction =
      { txData with
        isAnomaly := (AnomalyDetectionService.detectAnomaly txData recent
          (patient.avgMonthlySpending / 30)).isAnomaly
        riskScore := (AnomalyDetectionService.detectAnomaly txData recent
          (patient.avgMonthlySpending / 30)).riskScore } := by
  unfold processNewTransaction
  dsimp only
  split <;> rfl

/-- Concrete evaluation of the anomaly scorer on `txB` for `patientB`'s
daily average: the personal-average ratio 10/3 triggers the only partial,
so the score is 40 and the transaction is flagged anomalous. -/
theorem detectAnomaly_txB :
    AnomalyDetectionService.detectAnomaly txB [] (patientB.avgMonthlySpending / 30) =
      ⟨true, 40, ["평균 지출 대비 3배 초과"]⟩ := by
  have ha : AnomalyDetectionService.analyzeAmount txB.amount
      (patientB.avgMonthlySpending / 30) [] = ⟨40, ["평균 지출 대비 3배 초과"]⟩ := by
    have h1 : txB.amount = 100000 := rfl
    have h2 : patientB.avgMonthlySpending = 900000 := rfl
    rw [h1, h2]
    norm_num [AnomalyDetectionService.analyzeAmount, AnomalyDetectionService.amountVsAvg,
      AnomalyDetectionService.amountVsRecent, AnomalyDetectionService.amountAbsolute, jsRound]
    decide
  have hf : AnomalyDetectionService.analyzeFrequency txB [] = ⟨0, []⟩ := by decide
  have ht : AnomalyDetectionService.analyzeTime txB.hour = ⟨0, []⟩ := by decide
  have hm : AnomalyDetectionService.analyzeMerchant txB.merchant txB.description = ⟨0, []⟩ := by
    decide
  have hl : AnomalyDetectionService.analyzeLocation txB.location [] = ⟨0, []⟩ := by decide
  unfold AnomalyDetectionService.detectAnomaly
  dsimp only
  rw [ha, hf, ht, hm, hl]
  decide

/-- Concrete evaluation of the routes-side risk factors over the widened
history `[] ++ [storedTxB]`. -/
theorem anomalyFactors_widenedB :
    AnomalyDetectionService.calculateRiskFactors 0 ([] ++ [storedTxB]) =
      ⟨3, 10, some 0, 15⟩ := by
  have hlen : (List.filter (fun l => !decide (l = ""))
      (List.filterMap id [some "서울"])).dedup.length = 1 := by decide
  norm_num [AnomalyDetectionService.calculateRiskFactors, storedTxB, txB, jsRound, hlen]

/-- Concrete evaluation of the profiler's factors over the same widened
history: the 1.1 mild-dementia multiplier lifts the 15/20/0/20 bases to
17/22/0/22. -/
theorem profilerFactors_storedTxB :
    RiskProfilingService.calculateRiskFactors 0 patientB [storedTxB] =
      ⟨17, 22, 0, 22⟩ := by
  have hlen : (List.filter (fun l => !decide (l = ""))
      (List.filterMap id [some "서울"])).dedup.length = 1 := by decide
  have hmult : RiskProfilingService.getDementiaRiskMultiplier patientB.dementiaStage = 1.1 := rfl
  have havg : patientB.avgMonthlySpending = 900000 := rfl
  norm_num [RiskProfilingService.calculateRiskFactors, RiskProfilingService.weekTransactionsOf,
    RiskProfilingService.frequencyBaseScore, RiskProfilingService.amountBaseScore,
    RiskProfilingService.timingBaseScore, RiskProfilingService.locationBaseScore,
    RiskProfilingService.isProfilerNightHour, RiskProfilingService.adjustFactor,
    storedTxB, txB, jsRound, hlen, hmult, havg]

/-- C1: the claim says that with `immediateAlerts = false` no Alert row
is created regardless of anomaly status.  The route fetches the alert
settings but never consults them (and never calls
`shouldSendImmediateAlert`), so it creates an Alert row for every
anomalous transaction: at this concrete anomalous ingestion with
`immediateAlerts = false` an Alert row is still created. -/
theorem C1_alert_row_created_despite_disabled_immediateAlerts :
    (AlertSettings.mk false (some 100000)).immediateAlerts = false ∧
    (processNewTransaction 0 patientB (some (AlertSettings.mk false (some 100000)))
      [] txB).anomaly.isAnomaly = true ∧
    (processNewTransaction 0 patientB (some (AlertSettings.mk false (some 100000)))
      [] txB).alertCreated = some { type := "중위험", severity := "medium" } := by
  refine ⟨rfl, ?_, ?_⟩ <;>
    (unfold processNewTransaction
     dsimp only
     rw [detectAnomaly_txB]
     dsimp only
     decide)

/-- C2 counterexample: at a concrete anomalous ingestion the persisted
RiskAssessment row is (3, 10, 0, 15; total 7), computed by
`AnomalyDetectionService.calculateRiskFactors` and an unweighted mean,
while re-running the RiskProfiler over the same widened history yields
multiplier-adjusted factors (17, 22, 0, 22) and weighted total 17 — the
persisted snapshot matches the profiler in no factor and not in the
total, refuting the claim. -/
theorem C2_counterexample_snapshot_not_from_riskProfiler :
    (processNewTransaction 0 patientB (some (AlertSettings.mk true (some 100000)))
        [] txB).storedTransaction = storedTxB ∧
    (processNewTransaction 0 patientB (some (AlertSettings.mk true (some 100000)))
        [] txB).riskAssessmentCreated =
      some { frequencyScore := 3, amountScore := 10, timingScore := some 0,
             locationScore := 15, totalScore := some 7 } ∧
    (RiskProfilingService.assessRisk 0 patientB [storedTxB]).factors = ⟨17, 22, 0, 22⟩ ∧
    (RiskProfilingService.assessRisk 0 patientB [storedTxB]).totalScore = 17 ∧
    ((7 : ℤ) ≠ 17 ∧ (3 : ℤ) ≠ 17 ∧ (10 : ℤ) ≠ 22 ∧ (15 : ℤ) ≠ 22) := by
  refine ⟨?_, ?_, ?_, ?_, by norm_num⟩
  · rw [processNewTransaction_stored, detectAnomaly_txB]
    rfl
  · unfold processNewTransaction
    dsimp only
    rw [detectAnomaly_txB]
    dsimp only
    rw [if_pos rfl]
    dsimp only
    rw [show ({ txB with isAnomaly := true, riskScore := 40 } : Tx) = storedTxB from rfl]
    rw [anomalyFactors_widenedB]
    norm_num [routesTotalScore, jsRound]
  · have e1 : (RiskProfilingService.assessRisk 0 patientB [storedTxB]).factors =
        RiskProfilingService.calculateRiskFactors 0 patientB [storedTxB] := rfl
    rw [e1, profilerFactors_storedTxB]
  · have e2 : (RiskProfilingService.assessRisk 0 patientB [storedTxB]).totalScore =
        RiskProfilingService.calculateTotalScore
          (RiskProfilingService.calculateRiskFactors 0 patientB [storedTxB]) := rfl
    rw [e2, profilerFactors_storedTxB]
    norm_num [RiskProfilingService.calculateTotalScore, jsRound]

/-- C2 (amended): for every anomalous ingestion, the persisted
RiskAssessment snapshot carries exactly the factor scores computed by
`AnomalyDetectionService.calculateRiskFactors` over the widened history
(existing window plus the stored transaction) with totalScore the
rounded unweighted mean of the four, and the patient's riskLevel is then
set from that totalScore via the ≥ 70 / ≥ 40 tiers. -/
theorem C2_amended_snapshot_from_anomaly_scorer_factors (now : ℤ) (patient : Patient)
    (settings : Option AlertSettings) (recent : List Tx) (txData : Tx)
    (rf : AnomalyDetectionService.RiskFactorRecord)
    (hAnomaly : (processNewTransaction now patient settings recent txData).anomaly.isAnomaly
      = true)
    (hrf : rf = AnomalyDetectionService.calculateRiskFactors now
      (recent ++ [(processNewTransaction now patient settings recent txData).storedTransaction])) :
    (processNewTransaction now patient settings recent txData).riskAssessmentCreated =
      some { frequencyScore := rf.frequencyScore, amountScore := rf.amountScore,
             timingScore := rf.timingScore, locationScore := rf.locationScore,
             totalScore := routesTotalScore rf } ∧
    (processNewTransaction now patient settings recent txData).updatedRiskLevel =
      some (routesRiskLevel (routesTotalScore rf)) := by
  rw [processNewTransaction_anomaly] at hAnomaly
  rw [processNewTransaction_stored] at hrf
  subst hrf
  unfold processNewTransaction
  dsimp only
  rw [if_pos hAnomaly]
  exact ⟨rfl, rfl⟩

/-- C2 (amended) witness: the amended theorem instantiated at the
concrete anomalous ingestion of the counterexample. -/
theorem C2_amended_snapshot_witness :
    (processNewTransaction 0 patientB (some (AlertSettings.mk true (some 100000)))
        [] txB).riskAssessmentCreated =
      some { frequencyScore := (3 : ℤ), amountScore := 10, timingScore := some 0,
             locationScore := 15,
             totalScore := routesTotalScore
               { frequencyScore := 3, amountScore := 10, timingScore := some 0,
                 locationScore := 15 } } ∧
    (processNewTransaction 0 patientB (some (AlertSettings.mk true (some 100000)))
        [] txB).updatedRiskLevel =
      some (routesRiskLevel (routesTotalScore
        { frequencyScore := 3, amountScore := 10, timingScore := some 0,
          locationScore := 15 })) :=
  C2_amended_snapshot_from_anomaly_scorer_factors 0 patientB
    (some (AlertSettings.mk true (some 100000))) [] txB
    { frequencyScore := 3, amountScore := 10, timingScore := some 0, locationScore := 15 }
    (by rw [processNewTransaction_anomaly, detectAnomaly_txB])
    (by rw [processNewTransaction_stored, detectAnomaly_txB]
        exact anomalyFactors_widenedB.symm)

/-- C3: for every input the anomaly scorer's flag is exactly the ≥ 30
test on its capped risk score. -/
theorem C3_isAnomaly_iff_riskScore_ge_30 (transaction : Tx) (recent : List Tx) (avg : ℚ) :
    (AnomalyDetectionService.detectAnomaly transaction recent avg).isAnomaly = true ↔
      30 ≤ (AnomalyDetectionService.detectAnomaly transaction recent avg).riskScore := by
  unfold AnomalyDetectionService.detectAnomaly
  dsimp only
  simp [ge_iff_le]

/-- C4: the anomaly scorer's risk score and the profiler's total score
and all four multiplier-adjusted factor scores lie in [0, 100] for every
input. -/
theorem C4_scores_bounded_0_100 (transaction : Tx) (recent : List Tx) (avg : ℚ)
    (now : ℤ) (patient : Patient) (txs : List Tx) :
    (0 ≤ (AnomalyDetectionService.detectAnomaly transaction recent avg).riskScore ∧
      (AnomalyDetectionService.detectAnomaly transaction recent avg).riskScore ≤ 100) ∧
    (0 ≤ (RiskProfilingService.assessRisk now patient txs).totalScore ∧
      (RiskProfilingService.assessRisk now patient txs).totalScore ≤ 100) ∧
    (0 ≤ (RiskProfilingService.assessRisk now patient txs).factors.frequency ∧
      (RiskProfilingService.assessRisk now patient txs).factors.frequency ≤ 100) ∧
    (0 ≤ (RiskProfilingService.assessRisk now patient txs).factors.amount ∧
      (RiskProfilingService.assessRisk now patient txs).factors.amount ≤ 100) ∧
    (0 ≤ (RiskProfilingService.assessRisk now patient txs).factors.timing ∧
      (RiskProfilingService.assessRisk now patient txs).factors.timing ≤ 100) ∧
    (0 ≤ (RiskProfilingService.assessRisk now patient txs).factors.location ∧
      (RiskProfilingService.assessRisk now patient txs).factors.location ≤ 100) := by
  have hfb := RiskProfilingService.calculateRiskFactors_bounds now patient txs
  have htot := RiskProfilingService.calculateTotalScore_bounds hfb.1 hfb.2.1 hfb.2.2.1 hfb.2.2.2
  have e1 : (RiskProfilingService.assessRisk now patient txs).factors =
      RiskProfilingService.calculateRiskFactors now patient txs := rfl
  have e2 : (RiskProfilingService.assessRisk now patient txs).totalScore =
      RiskProfilingService.calculateTotalScore
        (RiskProfilingService.calculateRiskFactors now patient txs) := rfl
  rw [e1, e2]
  exact ⟨⟨AnomalyDetectionService.detectAnomaly_riskScore_nonneg transaction recent avg,
    AnomalyDetectionService.detectAnomaly_riskScore_le transaction recent avg⟩,
    htot, hfb.1, hfb.2.1, hfb.2.2.1, hfb.2.2.2⟩

/-- C5: the three tiers partition [0, 100] with inclusive lower
boundaries — [0, 40) low, [40, 70) medium, [70, 100] high — and in
particular 70 classifies high and 69 medium. -/
theorem C5_risk_level_tier_partition (t : ℤ) :
    (0 ≤ t → t < 40 → RiskProfilingService.determineRiskLevel t = "저위험") ∧
    (40 ≤ t → t < 70 → RiskProfilingService.determineRiskLevel t = "중위험") ∧
    (70 ≤ t → t ≤ 100 → RiskProfilingService.determineRiskLevel t = "고위험") ∧
    RiskProfilingService.determineRiskLevel 70 = "고위험" ∧
    RiskProfilingService.determineRiskLevel 69 = "중위험" := by
  refine ⟨?_, ?_, ?_, by decide, by decide⟩ <;>
    (intro h1 h2; unfold RiskProfilingService.determineRiskLevel; split_ifs <;>
      first | rfl | omega)

/-- C5 witness: the partition theorem applied at totalScore 50. -/
theorem C5_risk_level_tier_partition_witness :
    (40 : ℤ) ≤ 50 ∧ (50 : ℤ) < 70 ∧ RiskProfilingService.determineRiskLevel 50 = "중위험" :=
  ⟨by decide, by decide, (C5_risk_level_tier_partition 50).2.1 (by decide) (by decide)⟩

/-- C6: spec example 1 — amount 1,200,000, type ATM, hour 2, empty
history, historical average 100,000 — gives amount partial 40 + 35 = 75,
timing partial 20, all other partials 0, risk score 95, anomalous. -/
theorem C6_example_one_evaluates_to_95 :
    (AnomalyDetectionService.amountVsAvg 1200000 100000).score = 40 ∧
    (AnomalyDetectionService.amountAbsolute 1200000).score = 35 ∧
    (AnomalyDetectionService.analyzeAmount 1200000 100000 []).score = 75 ∧
    (AnomalyDetectionService.analyzeFrequency exampleOneTx []).score = 0 ∧
    (AnomalyDetectionService.analyzeTime 2).score = 20 ∧
    (AnomalyDetectionService.analyzeMerchant none none).score = 0 ∧
    (AnomalyDetectionService.analyzeLocation none []).score = 0 ∧
    (AnomalyDetectionService.detectAnomaly exampleOneTx [] 100000).riskScore = 95 ∧
    (AnomalyDetectionService.detectAnomaly exampleOneTx [] 100000).isAnomaly = true := by
  have ha : AnomalyDetectionService.analyzeAmount exampleOneTx.amount (100000 : ℚ) [] =
      ⟨75, ["평균 지출 대비 12배 초과", "100만원 이상 대용량 거래"]⟩ := by
    have h1 : exampleOneTx.amount = 1200000 := rfl
    rw [h1]
    norm_num [AnomalyDetectionService.analyzeAmount, AnomalyDetectionService.amountVsAvg,
      AnomalyDetectionService.amountVsRecent, AnomalyDetectionService.amountAbsolute, jsRound]
    decide
  have hd : AnomalyDetectionService.detectAnomaly exampleOneTx [] 100000 =
      ⟨true, 95, ["평균 지출 대비 12배 초과", "100만원 이상 대용량 거래",
        "비정상적인 시간대 거래 (심야/새벽)"]⟩ := by
    have hf : AnomalyDetectionService.analyzeFrequency exampleOneTx [] = ⟨0, []⟩ := by decide
    have ht : AnomalyDetectionService.analyzeTime exampleOneTx.hour =
        ⟨20, ["비정상적인 시간대 거래 (심야/새벽)"]⟩ := by decide
    have hm : AnomalyDetectionService.analyzeMerchant exampleOneTx.merchant
        exampleOneTx.description = ⟨0, []⟩ := by decide
    have hl : AnomalyDetectionService.analyzeLocation exampleOneTx.location [] = ⟨0, []⟩ := by
      decide
    unfold AnomalyDetectionService.detectAnomaly
    dsimp only
    rw [ha, hf, ht, hm, hl]
    decide
  refine ⟨?_, by decide, ?_, by decide, by decide, by decide, by decide, ?_, ?_⟩
  · have h40 : AnomalyDetectionService.amountVsAvg 1200000 100000 =
        ⟨40, ["평균 지출 대비 12배 초과"]⟩ := by
      norm_num [AnomalyDetectionService.amountVsAvg, jsRound]
      decide
    rw [h40]
  · have e : AnomalyDetectionService.analyzeAmount 1200000 100000 [] =
        AnomalyDetectionService.analyzeAmount exampleOneTx.amount (100000 : ℚ) [] := rfl
    rw [e, ha]
  · rw [hd]
  · rw [hd]

/-- C7: for every supplied settings record (with its threshold present),
the immediate-alert predicate holds exactly when immediate alerts are
enabled and either the risk score reaches 70 or the amount reaches the
configured threshold. -/
theorem C7_shouldSendImmediateAlert_characterization
    (riskScore transactionAmount threshold : ℚ) (imm : Bool) :
    RiskProfilingService.shouldSendImmediateAlert riskScore transactionAmount
        (some { immediateAlerts := imm, threshold := some threshold }) = true ↔
      (imm = true ∧ (70 ≤ riskScore ∨ threshold ≤ transactionAmount)) := by
  cases imm <;>
    simp [RiskProfilingService.shouldSendImmediateAlert, ge_iff_le]

/-- C8 counterexample: a single trailing-7-day transaction at clock time
07:30 — outside the claimed night window [22:00–07:00], whose hour-level
content is hour ≥ 22, hour < 7, or exactly 07:00 — is nevertheless
counted by the profiler (`hour >= 22 || hour <= 7`), making the timing
base score 100 where the claim predicts 0. -/
theorem C8_counterexample_0730_counted_as_night :
    RiskProfilingService.timingBaseScore [morningTx] = 100 ∧
    morningTx.hour = 7 ∧ morningTx.minute = 30 ∧
    ¬(22 ≤ morningTx.hour ∨ morningTx.hour < 7 ∨
        (morningTx.hour = 7 ∧ morningTx.minute = 0)) := by
  refine ⟨?_, by decide, by decide, by decide⟩
  norm_num [RiskProfilingService.timingBaseScore, RiskProfilingService.isProfilerNightHour,
    morningTx, jsRound]

/-- C8 (amended): on a non-empty 7-day window the timing base score is
the rounded percentage of transactions whose hour satisfies
hour ≥ 22 or hour ≤ 7 (the night window is [22:00–08:00) by whole clock
hours), and a transaction with 8 ≤ hour ≤ 21 never counts as night. -/
theorem C8_amended_night_window_includes_hour_seven (week : List Tx) (h : week ≠ []) :
    RiskProfilingService.timingBaseScore week =
      jsRound ((((week.filter RiskProfilingService.isProfilerNightHour).length : ℚ) /
        (week.length : ℚ)) * 100) ∧
    ∀ t : Tx, 7 < t.hour → t.hour < 22 →
      RiskProfilingService.isProfilerNightHour t = false := by
  constructor
  · unfold RiskProfilingService.timingBaseScore
    dsimp only
    rw [if_pos (List.length_pos.mpr h)]
  · intro t h1 h2
    simp only [RiskProfilingService.isProfilerNightHour, Bool.or_eq_false_iff,
      decide_eq_false_iff_not]
    omega

/-- C8 (amended) witness: the amended theorem instantiated at the
single-transaction week of the counterexample. -/
theorem C8_amended_night_window_witness :
    ([morningTx] ≠ ([] : List Tx)) ∧
    (RiskProfilingService.timingBaseScore [morningTx] =
      jsRound (((([morningTx].filter RiskProfilingService.isProfilerNightHour).length : ℚ) /
        (([morningTx] : List Tx).length : ℚ)) * 100) ∧
     ∀ t : Tx, 7 < t.hour → t.hour < 22 →
       RiskProfilingService.isProfilerNightHour t = false) :=
  ⟨by decide, C8_amended_night_window_includes_hour_seven [morningTx] (by decide)⟩

/-- C9 counterexample: at base factor score 1 (< 100, and far from the
100 clamp) the mild (×1.1) and moderate (×1.3) multiplier-adjusted
scores are both `Math.round`-ed to 1, so the adjusted scores are not
strictly increasing along the dementia stages. -/
theorem C9_counterexample_strictness_fails_at_base_one :
    (1 : ℚ) < 100 ∧
    RiskProfilingService.adjustFactor 1
        (RiskProfilingService.getDementiaRiskMultiplier (some "경도")) = 1 ∧
    RiskProfilingService.adjustFactor 1
        (RiskProfilingService.getDementiaRiskMultiplier (some "중등도")) = 1 := by
  have h1 : RiskProfilingService.getDementiaRiskMultiplier (some "경도") = 1.1 := rfl
  have h2 : RiskProfilingService.getDementiaRiskMultiplier (some "중등도") = 1.3 := rfl
  rw [h1, h2]
  norm_num [RiskProfilingService.adjustFactor, jsRound]

/-- C9 (amended): for every non-negative base factor score the
multiplier-adjusted factor scores are monotone non-decreasing along
dementia stages mild (×1.1) ≤ moderate (×1.3) ≤ severe (×1.5); rounding
and the clamp at 100 allow ties, so the increase is not strict. -/
theorem C9_amended_multiplier_monotone_nonstrict (b : ℚ) (hb : 0 ≤ b) :
    RiskProfilingService.adjustFactor b
        (RiskProfilingService.getDementiaRiskMultiplier (some "경도")) ≤
      RiskProfilingService.adjustFactor b
        (RiskProfilingService.getDementiaRiskMultiplier (some "중등도")) ∧
    RiskProfilingService.adjustFactor b
        (RiskProfilingService.getDementiaRiskMultiplier (some "중등도")) ≤
      RiskProfilingService.adjustFactor b
        (RiskProfilingService.getDementiaRiskMultiplier (some "중증")) := by
  have h1 : RiskProfilingService.getDementiaRiskMultiplier (some "경도") = 1.1 := rfl
  have h2 : RiskProfilingService.getDementiaRiskMultiplier (some "중등도") = 1.3 := rfl
  have h3 : RiskProfilingService.getDementiaRiskMultiplier (some "중증") = 1.5 := rfl
  rw [h1, h2, h3]
  unfold RiskProfilingService.adjustFactor
  constructor
  · exact min_le_min (jsRound_mono (by nlinarith)) le_rfl
  · exact min_le_min (jsRound_mono (by nlinarith)) le_rfl

/-- C9 (amended) witness: the monotonicity theorem instantiated at base
factor score 50. -/
theorem C9_amended_multiplier_monotone_witness :
    (0 : ℚ) ≤ 50 ∧
    (RiskProfilingService.adjustFactor 50
        (RiskProfilingService.getDementiaRiskMultiplier (some "경도")) ≤
      RiskProfilingService.adjustFactor 50
        (RiskProfilingService.getDementiaRiskMultiplier (some "중등도")) ∧
     RiskProfilingService.adjustFactor 50
        (RiskProfilingService.getDementiaRiskMultiplier (some "중등도")) ≤
      RiskProfilingService.adjustFactor 50
        (RiskProfilingService.getDementiaRiskMultiplier (some "중증"))) :=
  ⟨by norm_num, C9_amended_multiplier_monotone_nonstrict 50 (by norm_num)⟩

/-- C10: when the trailing 7-day window is empty, the profiler's
zero-guard makes `assessRisk` return timing factor 0, while the anomaly
service's `calculateRiskFactors` performs the same division unguarded
and its timing score is the `NaN` marker `none`. -/
theorem C10_empty_week_timing_guard_asymmetry (now : ℤ) (patient : Patient) (txs : List Tx)
    (h : RiskProfilingService.weekTransactionsOf now txs = []) :
    (RiskProfilingService.assessRisk now patient txs).factors.timing = 0 ∧
    (AnomalyDetectionService.calculateRiskFactors now txs).timingScore = none := by
  have hfilter : txs.filter
      (fun t => decide (now - 7 * 24 * 60 * 60 * 1000 ≤ t.timestamp)) = [] := h
  constructor
  · have e1 : (RiskProfilingService.assessRisk now patient txs).factors.timing =
        RiskProfilingService.adjustFactor
          ((RiskProfilingService.timingBaseScore
            (RiskProfilingService.weekTransactionsOf now txs) : ℤ) : ℚ)
          (RiskProfilingService.getDementiaRiskMultiplier patient.dementiaStage) := rfl
    rw [e1, h]
    have hz : RiskProfilingService.timingBaseScore ([] : List Tx) = 0 := rfl
    rw [hz]
    unfold RiskProfilingService.adjustFactor
    norm_num [jsRound]
  · unfold AnomalyDetectionService.calculateRiskFactors
    dsimp only
    rw [hfilter]
    simp

/-- C10 witness: the guard asymmetry at an empty transaction history. -/
theorem C10_empty_week_timing_guard_witness :
    RiskProfilingService.weekTransactionsOf 0 [] = ([] : List Tx) ∧
    ((RiskProfilingService.assessRisk 0 patientB []).factors.timing = 0 ∧
     (AnomalyDetectionService.calculateRiskFactors 0 []).timingScore = none) :=
  ⟨rfl, C10_empty_week_timing_guard_asymmetry 0 patientB [] rfl⟩
